import Mathlib

/-!
Shallow embedding of the IkunCode status-line segment
(src/core/segments/ikuncode.rs) of CCometixLine.

The segment is a cache-aside collector: it gates on credentials, loads a
JSON cache record, checks its age against a configurable duration, and on
a stale or absent cache fetches daily spend and balance from a remote API,
persisting the fresh values.

External library behaviour (chrono timestamp parsing and formatting, the
HTTP transport, JSON body decoding) is modelled by explicit oracle
parameters: an instant is an integer count of nanoseconds (chrono's
resolution), a parser is a function from strings to optional instants, and
each HTTP call's observable outcome is an optional decoded response
(`none` covering transport error, timeout and malformed body alike, since
the source collapses them with `.ok()` and `.and_then(... .ok())`).
Rust `f64` money values are modelled as exact rationals; every claim
evaluates them only at inputs where the `f64` computation is exact.
-/

namespace IkunCode

/-- Nanoseconds per second; chrono durations are nanosecond-exact. -/
def NANOS_PER_SEC : Int := 1000000000

/-- Model of chrono `Duration::num_seconds`: the whole seconds of a
nanosecond duration, truncated toward zero (a -0.5 s duration has 0 whole
seconds). -/
def durationNumSeconds (nanos : Int) : Int := Int.tdiv nanos NANOS_PER_SEC

/-- Model of the Rust cast `as i64` applied to a `u64` value `d < 2^64`:
values below `2^63` are unchanged, larger ones wrap to negatives. -/
def u64AsI64 (d : Nat) : Int :=
  if d < 2 ^ 63 then (d : Int) else (d : Int) - 2 ^ 64

/-- The persisted cache record (struct `IkunCodeCache`): money values as
rationals standing for the source's `f64`, and the timestamp kept as the
raw string exactly as the source stores it. -/
structure IkunCodeCache where
  cost : ℚ
  balance : ℚ
  cached_at : String
deriving DecidableEq

/-- The decoded body shared by both API endpoints: `\x7b success: bool,
data: \x7b quota: integer \x7d \x7d`, flattened to the two fields the
source reads. -/
structure ApiResponse where
  quota : Int
  success : Bool
deriving DecidableEq

/-- The result record handed to the renderer (struct `SegmentData`); the
metadata `HashMap` is modelled as an association list (always empty here).
-/
structure SegmentData where
  primary : String
  secondary : String
  metadata : List (String × String)
deriving DecidableEq

/-- The slice of the loaded configuration that `collect` reads: the two
credential strings, and the per-segment `timeout` / `cache_duration`
options after the `as_u64` coercion (`none` models an absent or
non-integer option, which the source defaults). -/
structure Config where
  user_token : String
  user_id : String
  timeoutOpt : Option Nat
  cacheDurationOpt : Option Nat
deriving DecidableEq

/-- Model of `is_cache_valid`: parse `cached_at` (the `parse` oracle
stands for chrono's RFC3339 parser, returning the instant in nanoseconds),
take the signed elapsed whole seconds from it to `now`
(`Utc::now().signed_duration_since(..).num_seconds()`), and compare
strictly against `cache_duration as i64`; an unparsable timestamp is
invalid. -/
def is_cache_valid (parse : String → Option Int) (now : Int)
    (cache : IkunCodeCache) (cache_duration : Nat) : Bool :=
  match parse cache.cached_at with
  | some cached_at =>
      decide (durationNumSeconds (now - cached_at) < u64AsI64 cache_duration)
  | none => false

/-- Model of the on-disk cache file as the optional record it holds;
`none` is a missing, unreadable or unparsable file. `load_cache` reads and
decodes it, failing soft to `none` (`.ok()?` chains in the source). -/
def load_cache (store : Option IkunCodeCache) : Option IkunCodeCache := store

/-- Model of `save_cache`: serialize and write the record, best-effort.
The `writeOk` flag models whether the swallowed filesystem write succeeds
(`let _ = std::fs::write(..)`); on failure the file keeps its previous
contents. Serialization is serde_json of the whole record, which
round-trips it, so the successful write is modelled as storing the record
itself. -/
def save_cache (writeOk : Bool) (store : Option IkunCodeCache)
    (cache : IkunCodeCache) : Option IkunCodeCache :=
  if writeOk then some cache else store

/-- Model of one authenticated GET in `fetch_data`:
`.call().ok().and_then(|r| r.into_json().ok())` collapses transport error,
timeout and malformed body into `none`; `.filter(|r| r.success)` drops an
unsuccessful body; `.map(|r| r.data.quota as f64 / 500000.0)` scales the
quota; `.unwrap_or(0.0)` turns every failure into 0. -/
def apiValue (resp : Option ApiResponse) : ℚ :=
  match resp with
  | some r => if r.success then mkRat r.quota 500000 else 0
  | none => 0

/-- Model of `fetch_data`. `startOfDay` is the oracle for resolving local
midnight (`today.and_hms_opt(0,0,0)?` and `.single()?`): when it is `none`
the function returns `none` before any call is issued — the only way the
source's `fetch_data` returns `None`. Otherwise both queries are made and
each degrades independently through `apiValue`. `timeout_secs` configures
the HTTP client, whose observable outcome the response oracles already
carry. -/
def fetch_data (timeout_secs : Nat) (startOfDay : Option Int)
    (statResp userResp : Option ApiResponse) : Option (ℚ × ℚ) :=
  match timeout_secs, startOfDay with
  | _, none => none
  | _, some _ => some (apiValue statResp, apiValue userResp)

/-- Round 100·q to the nearest integer, ties to even — the rounding
Rust's fixed-precision float formatting applies to the exact value.
Computed on the numerator and denominator with integer arithmetic: `f` is
the floor of 100·q and `rem2` is twice the fractional remainder scaled by
the denominator. -/
def roundCents (q : ℚ) : Int :=
  let a := q.num * 100
  let d := (q.den : Int)
  let f := Int.ediv a d
  let rem2 := 2 * (a - f * d)
  if rem2 < d then f
  else if d < rem2 then f + 1
  else if Int.emod f 2 = 0 then f else f + 1

/-- Model of Rust precision-2 float formatting of a finite value
(the format argument written colon dot two in the source): sign, then the
value rounded to hundredths rendered with exactly two decimals. -/
def formatFixed2 (q : ℚ) : String :=
  let sign := if q.num < 0 then "-" else ""
  let n := (roundCents q).natAbs
  let whole := n / 100
  let frac := n % 100
  sign ++ toString whole ++ "." ++
    (if frac < 10 then "0" else "") ++ toString frac

/-- The primary string built on the success paths of `collect`. -/
def renderPrimary (cost balance : ℚ) : String :=
  "ikuncode 本日消费 $" ++ formatFixed2 cost ++ " 余额 $" ++ formatFixed2 balance

/-- The fixed placeholder returned when credentials are missing. -/
def unauthenticatedPlaceholder : String := "ikuncode 本日消费$- 余额$-"

/-- Everything the environment supplies to one invocation of `collect`:
the loaded configuration (`Config::load().ok()`), the cache file contents,
the chrono parse and format oracles, the instant observed inside
`is_cache_valid` (`nowValid`) and the instant observed when stamping a
fresh record (`nowSave`), the local-midnight resolution, and the two API
call outcomes. -/
structure CollectEnv where
  configLoad : Option Config
  cacheFile : Option IkunCodeCache
  parse : String → Option Int
  toRfc3339 : Int → String
  nowValid : Int
  nowSave : Int
  startOfDay : Option Int
  statResp : Option ApiResponse
  userResp : Option ApiResponse

/-- Observable side effects of one invocation: whether the cache file was
read, whether `fetch_data` was entered (the network touched), and the
record passed to `save_cache`, if any. -/
structure CollectEffects where
  cacheRead : Bool
  fetchCalled : Bool
  savedRecord : Option IkunCodeCache
deriving DecidableEq

/-- No effects at all. -/
def noEffects : CollectEffects :=
  { cacheRead := false, fetchCalled := false, savedRecord := none }

/-- Model of `collect`, returning the optional `SegmentData` together with
the effect record. Mirrors the source: config load (`?` on failure),
credential gate, defaulted options, cache load and validity, then either
the cached values, or a fetch that on success persists a freshly stamped
record and on failure falls back to the previously loaded record via
`cached_data.map(..)?`. The inner `none` arm of the cached branch mirrors
the source's `cached_data.unwrap()` and is unreachable, since `use_cached`
is false when no record was loaded. -/
def collect (env : CollectEnv) : Option SegmentData × CollectEffects :=
  match env.configLoad with
  | none => (none, noEffects)
  | some config =>
    if config.user_token.isEmpty || config.user_id.isEmpty then
      (some { primary := unauthenticatedPlaceholder, secondary := "",
              metadata := [] }, noEffects)
    else
      let timeout := config.timeoutOpt.getD 5
      let cache_duration := config.cacheDurationOpt.getD 180
      let cached_data := load_cache env.cacheFile
      let use_cached := (cached_data.map fun c =>
        is_cache_valid env.parse env.nowValid c cache_duration).getD false
      if use_cached then
        match cached_data with
        | some cache =>
            (some { primary := renderPrimary cache.cost cache.balance,
                    secondary := "", metadata := [] },
             { cacheRead := true, fetchCalled := false, savedRecord := none })
        | none =>
            (none, { cacheRead := true, fetchCalled := false,
                     savedRecord := none })
      else
        match fetch_data timeout env.startOfDay env.statResp env.userResp with
        | some (cost, balance) =>
            let newRecord : IkunCodeCache :=
              { cost := cost, balance := balance,
                cached_at := env.toRfc3339 env.nowSave }
            (some { primary := renderPrimary cost balance,
                    secondary := "", metadata := [] },
             { cacheRead := true, fetchCalled := true,
               savedRecord := some newRecord })
        | none =>
            match cached_data with
            | some c =>
                (some { primary := renderPrimary c.cost c.balance,
                        secondary := "", metadata := [] },
                 { cacheRead := true, fetchCalled := true,
                   savedRecord := none })
            | none =>
                (none, { cacheRead := true, fetchCalled := true,
                         savedRecord := none })

/-! Concrete fixtures used by witnesses and counterexamples. -/

/-- Concrete parse oracle: a finite table of RFC3339 strings with their
instants in nanoseconds (the second one is one nanosecond after the
epoch of the first); every other string is unparsable. -/
def testParse : String → Option Int := fun s =>
  if s = "2024-01-01T00:00:00Z" then some 0
  else if s = "2024-01-01T00:00:00.000000001Z" then some 1
  else none

/-- A record stamped at the instant `testParse` maps to 0, carrying the
spec's example values cost 1.50 and balance 3.25. -/
def recEpoch : IkunCodeCache :=
  { cost := mkRat 3 2, balance := mkRat 13 4,
    cached_at := "2024-01-01T00:00:00Z" }

/-- A record stamped one nanosecond after `recEpoch`. -/
def recFutureNano : IkunCodeCache :=
  { cost := 0, balance := 0,
    cached_at := "2024-01-01T00:00:00.000000001Z" }

/-- A record whose timestamp no parser accepts. -/
def recBadStamp : IkunCodeCache :=
  { cost := mkRat 3 2, balance := mkRat 13 4,
    cached_at := "not-a-timestamp" }

/-- A configuration with credentials present and no per-segment options,
so both options take their defaults (5 and 180). -/
def cfgPresent : Config :=
  { user_token := "tok", user_id := "42",
    timeoutOpt := none, cacheDurationOpt := none }

/-! Claim theorems. -/

/-- Claim C2, amended. For every parse oracle, instant, record and cache
duration below-2^63: `is_cache_valid` returns true iff `cached_at` parses
and the truncated elapsed whole seconds to now are strictly less than the
duration (so elapsed equal to the duration is invalid); and an unparsable
`cached_at` is invalid for every duration. The below-2^63 bound is forced
by the source's `cache_duration as i64` cast, which turns larger durations
into negative thresholds, breaking the stated equivalence at the
counterexample's duration 2^63. -/
theorem is_cache_valid_characterized (parse : String → Option Int)
    (now : Int) (cache : IkunCodeCache) :
    (∀ d : Nat, d < 2 ^ 63 →
      (is_cache_valid parse now cache d = true ↔
        ∃ t, parse cache.cached_at = some t ∧
          durationNumSeconds (now - t) < (d : Int))) ∧
    (parse cache.cached_at = none →
      ∀ d : Nat, is_cache_valid parse now cache d = false) := by
  constructor
  · intro d hd
    unfold is_cache_valid
    cases hp : parse cache.cached_at with
    | none => simp
    | some t =>
        have hcast : u64AsI64 d = (d : Int) := by
          unfold u64AsI64
          rw [if_pos hd]
        simp [hcast]
  · intro hp d
    unfold is_cache_valid
    rw [hp]

/-- Witness for `is_cache_valid_characterized`: a record 59 seconds old is
valid for the default 180-second duration, and an unparsable record is
invalid. -/
theorem is_cache_valid_characterized_witness :
    is_cache_valid testParse (59 * NANOS_PER_SEC) recEpoch 180 = true ∧
    is_cache_valid testParse 0 recBadStamp 7 = false :=
  ⟨((is_cache_valid_characterized testParse (59 * NANOS_PER_SEC)
        recEpoch).1 180 (by decide)).mpr ⟨0, by decide, by decide⟩,
   (is_cache_valid_characterized testParse 0 recBadStamp).2 (by decide) 7⟩

/-- Counterexample to claim C2 as stated: at cache duration 2^63 the
record stamped exactly at the current instant parses and its elapsed whole
seconds (0) are strictly less than the duration, yet `is_cache_valid`
rejects it, because the `u64` duration cast to `i64` wraps to a negative
threshold. -/
theorem is_cache_valid_large_duration_counterexample :
    testParse recEpoch.cached_at = some 0 ∧
    durationNumSeconds (0 - 0) < ((2 ^ 63 : Nat) : Int) ∧
    is_cache_valid testParse 0 recEpoch (2 ^ 63) = false :=
  ⟨by decide, by decide, by decide⟩

/-- Claim C10, amended. A record whose `cached_at` parses to an instant at
least one whole second later than the current instant is valid for every
cache duration below 2^63, including duration 0: the elapsed whole seconds
are at most -1, below every non-negative threshold. (Sub-second future
offsets truncate to elapsed 0 and are rejected at duration 0; and at
duration 2^63 exactly, the cast threshold -2^63 lies below the elapsed
seconds of the counterexample's hour-future record, which is rejected.) -/
theorem is_cache_valid_future_full_second (parse : String → Option Int)
    (now t : Int) (cache : IkunCodeCache) (d : Nat)
    (hp : parse cache.cached_at = some t)
    (hfut : NANOS_PER_SEC ≤ t - now)
    (hd : d < 2 ^ 63) :
    is_cache_valid parse now cache d = true := by
  unfold is_cache_valid
  rw [hp]
  have hcast : u64AsI64 d = (d : Int) := by
    unfold u64AsI64
    rw [if_pos hd]
  rw [hcast]
  have hneg : durationNumSeconds (now - t) ≤ -1 := by
    unfold durationNumSeconds NANOS_PER_SEC at *
    have h1 : Int.tdiv (now - t) 1000000000
        = -(Int.tdiv (-(now - t)) 1000000000) := by
      rw [← Int.neg_tdiv, neg_neg]
    have h2 : (1 : Int) ≤ Int.tdiv (-(now - t)) 1000000000 := by
      rw [Int.tdiv_eq_ediv (by omega) (by omega)]
      rw [Int.le_ediv_iff_mul_le (by omega)]
      omega
    omega
  have hpos : (0 : Int) ≤ (d : Int) := Int.ofNat_nonneg d
  simp only [decide_eq_true_eq]
  omega

/-- Witness for `is_cache_valid_future_full_second`: a record stamped one
nanosecond after the epoch, checked one second minus one nanosecond before
it, is valid even at cache duration 0. -/
theorem is_cache_valid_future_full_second_witness :
    is_cache_valid testParse (1 - NANOS_PER_SEC) recFutureNano 0 = true :=
  is_cache_valid_future_full_second testParse (1 - NANOS_PER_SEC) 1
    recFutureNano 0 (by decide) (by decide) (by decide)

/-- Counterexample to claim C10 as stated: a record one nanosecond in the
future parses to a strictly later instant, yet at cache duration 0 it is
invalid, because the elapsed duration truncates to 0 whole seconds, not a
negative count; and an hour-in-the-future record is invalid at cache
duration 2^63, whose cast threshold -2^63 lies below its elapsed -3600
seconds. -/
theorem is_cache_valid_future_counterexample :
    (testParse recFutureNano.cached_at = some 1 ∧ (0 : Int) < 1 ∧
      is_cache_valid testParse 0 recFutureNano 0 = false) ∧
    is_cache_valid testParse (1 - 3600 * NANOS_PER_SEC) recFutureNano
      (2 ^ 63) = false :=
  ⟨⟨by decide, by decide, by decide⟩, by decide⟩

/-- A configuration whose token is empty (unauthenticated). -/
def cfgNoToken : Config :=
  { user_token := "", user_id := "42",
    timeoutOpt := none, cacheDurationOpt := none }

/-- Environment for the unauthenticated witness: cache and network
oracles are populated to show they are never consulted. -/
def envC4 : CollectEnv :=
  { configLoad := some cfgNoToken, cacheFile := some recEpoch,
    parse := testParse, toRfc3339 := fun _ => "", nowValid := 0,
    nowSave := 0, startOfDay := some 0, statResp := none, userResp := none }

/-- Environment for the total-fetch-failure witness: an invalid (because
unparsable) cached record, and a failing local-midnight resolution. -/
def envC1 : CollectEnv :=
  { configLoad := some cfgPresent, cacheFile := some recBadStamp,
    parse := testParse, toRfc3339 := fun _ => "", nowValid := 0,
    nowSave := 0, startOfDay := none, statResp := none, userResp := none }

/-- Environment for the valid-cache witness: the record is 59 seconds old
against the default 180-second duration; the network oracles carry junk
to show they are ignored. -/
def envC3 : CollectEnv :=
  { configLoad := some cfgPresent, cacheFile := some recEpoch,
    parse := testParse, toRfc3339 := fun _ => "",
    nowValid := 59 * NANOS_PER_SEC, nowSave := 0, startOfDay := some 0,
    statResp := some { quota := 999, success := true },
    userResp := some { quota := 999, success := true } }

/-- Environment for the fresh-fetch witness: no cache file, both queries
succeed with quotas 750000 and 1625000. -/
def envC5 : CollectEnv :=
  { configLoad := some cfgPresent, cacheFile := none, parse := testParse,
    toRfc3339 := fun _ => "2024-06-01T00:00:00+00:00", nowValid := 0,
    nowSave := 0, startOfDay := some 0,
    statResp := some { quota := 750000, success := true },
    userResp := some { quota := 1625000, success := true } }

/-- Environment for the spec's worked example: no cache file, stat quota
1000000 and user quota 2500000. -/
def envC6 : CollectEnv :=
  { configLoad := some cfgPresent, cacheFile := none, parse := testParse,
    toRfc3339 := fun _ => "2024-06-01T00:00:00+00:00", nowValid := 0,
    nowSave := 0, startOfDay := some 0,
    statResp := some { quota := 1000000, success := true },
    userResp := some { quota := 2500000, success := true } }

/-- Claim C4. When the loaded configuration has an empty `user_token` or
an empty `user_id`, `collect` returns exactly the fixed placeholder
record (the dash standing in for both numbers) and performs no cache file
I/O, no fetch, and no save. -/
theorem collect_empty_credentials (env : CollectEnv) (config : Config)
    (hc : env.configLoad = some config)
    (he : (config.user_token.isEmpty || config.user_id.isEmpty) = true) :
    collect env =
      (some { primary := unauthenticatedPlaceholder, secondary := "",
              metadata := [] }, noEffects) := by
  unfold collect
  rw [hc]
  simp [he]

/-- Witness for `collect_empty_credentials`: an empty token with cache
and network oracles populated still yields the placeholder and no
effects. -/
theorem collect_empty_credentials_witness :
    collect envC4 =
      (some { primary := unauthenticatedPlaceholder, secondary := "",
              metadata := [] }, noEffects) :=
  collect_empty_credentials envC4 cfgNoToken rfl (by decide)

/-- Claim C3. When credentials are present, a cache record is loaded and
`is_cache_valid` accepts it against the configured (or default 180)
duration, `collect` renders exactly the cached cost and balance and the
effects show no fetch and no save. -/
theorem collect_valid_cache_no_fetch (env : CollectEnv) (config : Config)
    (cache : IkunCodeCache)
    (hc : env.configLoad = some config)
    (ht : config.user_token.isEmpty = false)
    (hi : config.user_id.isEmpty = false)
    (hcache : env.cacheFile = some cache)
    (hvalid : is_cache_valid env.parse env.nowValid cache
      (config.cacheDurationOpt.getD 180) = true) :
    collect env =
      (some { primary := renderPrimary cache.cost cache.balance,
              secondary := "", metadata := [] },
       { cacheRead := true, fetchCalled := false, savedRecord := none }) := by
  unfold collect
  rw [hc]
  simp [ht, hi, load_cache, hcache, hvalid]

/-- Witness for `collect_valid_cache_no_fetch`: the spec's example — a
59-second-old record with cost 1.50 and balance 3.25 against the default
180-second duration — renders the cached values with no fetch. -/
theorem collect_valid_cache_no_fetch_witness :
    collect envC3 =
      (some { primary := "ikuncode 本日消费 $1.50 余额 $3.25",
              secondary := "", metadata := [] },
       { cacheRead := true, fetchCalled := false, savedRecord := none }) := by
  have h := collect_valid_cache_no_fetch envC3 cfgPresent recEpoch rfl
    (by decide) (by decide) rfl (by decide)
  exact h.trans (by decide)

/-- Claim C1. When credentials are present, every loaded record is
invalid (so a fetch is attempted) and `fetch_data` returns nothing, the
result is the previously loaded record's cost and balance when one was
loaded, and no record at all otherwise. -/
theorem collect_fetch_failed_fallback (env : CollectEnv) (config : Config)
    (hc : env.configLoad = some config)
    (ht : config.user_token.isEmpty = false)
    (hi : config.user_id.isEmpty = false)
    (hstale : ∀ c, env.cacheFile = some c →
      is_cache_valid env.parse env.nowValid c
        (config.cacheDurationOpt.getD 180) = false)
    (hfail : env.startOfDay = none) :
    (collect env).1 = (env.cacheFile).map (fun c =>
      { primary := renderPrimary c.cost c.balance, secondary := "",
        metadata := [] }) := by
  unfold collect
  rw [hc]
  cases hcf : env.cacheFile with
  | none => simp [ht, hi, load_cache, hcf, fetch_data, hfail]
  | some c =>
      have hv := hstale c hcf
      simp [ht, hi, load_cache, hcf, hv, fetch_data, hfail]

/-- Witness for `collect_fetch_failed_fallback`: with an unparsable (so
invalid) cached record and a failed fetch, the stale values 1.50 and 3.25
are still rendered. -/
theorem collect_fetch_failed_fallback_witness :
    (collect envC1).1 =
      some { primary := "ikuncode 本日消费 $1.50 余额 $3.25",
             secondary := "", metadata := [] } := by
  have h := collect_fetch_failed_fallback envC1 cfgPresent rfl (by decide)
    (by decide)
    (fun c hc => by
      have hrec : c = recBadStamp :=
        (Option.some.inj (hc : (some recBadStamp : Option IkunCodeCache)
          = some c)).symm
      rw [hrec]
      decide) rfl
  exact h.trans (by decide)

/-- Claim C5. When credentials are present, every loaded record is
invalid (stale or absent cache) and the fetch succeeds, `collect` saves a
record holding exactly the fetched cost and balance, stamped with the
formatted write-time instant, and renders those fetched values. -/
theorem collect_fetch_success_persists (env : CollectEnv) (config : Config)
    (s : Int)
    (hc : env.configLoad = some config)
    (ht : config.user_token.isEmpty = false)
    (hi : config.user_id.isEmpty = false)
    (hstale : ∀ c, env.cacheFile = some c →
      is_cache_valid env.parse env.nowValid c
        (config.cacheDurationOpt.getD 180) = false)
    (hs : env.startOfDay = some s) :
    collect env =
      (some { primary := renderPrimary (apiValue env.statResp)
                (apiValue env.userResp),
              secondary := "", metadata := [] },
       { cacheRead := true, fetchCalled := true,
         savedRecord := some
           { cost := apiValue env.statResp,
             balance := apiValue env.userResp,
             cached_at := env.toRfc3339 env.nowSave } }) := by
  unfold collect
  rw [hc]
  cases hcf : env.cacheFile with
  | none => simp [ht, hi, load_cache, hcf, fetch_data, hs]
  | some c =>
      have hv := hstale c hcf
      simp [ht, hi, load_cache, hcf, hv, fetch_data, hs]

/-- Witness for `collect_fetch_success_persists`: no cache file, quotas
750000 and 1625000 fetched; the saved record carries 1.50 and 3.25 with
the formatted save-time stamp, and the same values are rendered. -/
theorem collect_fetch_success_persists_witness :
    collect envC5 =
      (some { primary := "ikuncode 本日消费 $1.50 余额 $3.25",
              secondary := "", metadata := [] },
       { cacheRead := true, fetchCalled := true,
         savedRecord := some
           { cost := mkRat 3 2, balance := mkRat 13 4,
             cached_at := "2024-06-01T00:00:00+00:00" } }) := by
  have h := collect_fetch_success_persists envC5 cfgPresent 0 rfl
    (by decide) (by decide) (fun c hc => Option.noConfusion hc) rfl
  exact h.trans (by decide)

/-- Claim C6. Every successful query's quota is scaled by the fixed
divisor 500000 (the exact rational `mkRat qs 500000` is the division by
500000), and on the spec's example — stat quota 1000000 and user quota
2500000 with no cache file — `collect` renders the primary string with
cost 2.00 and balance 5.00. -/
theorem fetch_quota_conversion (timeout_secs : Nat) (s qs qu : Int) :
    fetch_data timeout_secs (some s)
        (some { quota := qs, success := true })
        (some { quota := qu, success := true })
      = some (mkRat qs 500000, mkRat qu 500000)
    ∧ mkRat qs 500000 = (qs : ℚ) / 500000
    ∧ (collect envC6).1 =
        some { primary := "ikuncode 本日消费 $2.00 余额 $5.00",
               secondary := "", metadata := [] } := by
  refine ⟨by simp [fetch_data, apiValue], ?_, by decide⟩
  rw [Rat.mkRat_eq_div]
  norm_num

/-- Claim C7. Within one fetch each query degrades independently: a
transport failure, timeout or malformed body (the `none` outcome) or an
unsuccessful body on one query yields 0 for that query's value only,
while the other query's value and the overall fetch are unaffected. -/
theorem fetch_degrades_independently (timeout_secs : Nat) (s qs qu : Int)
    (st u : Option ApiResponse) :
    fetch_data timeout_secs (some s) none u = some (0, apiValue u)
    ∧ fetch_data timeout_secs (some s) st none = some (apiValue st, 0)
    ∧ fetch_data timeout_secs (some s)
        (some { quota := qs, success := false }) u = some (0, apiValue u)
    ∧ fetch_data timeout_secs (some s) st
        (some { quota := qu, success := false }) = some (apiValue st, 0) := by
  refine ⟨?_, ?_, ?_, ?_⟩ <;> simp [fetch_data, apiValue]

/-- Claim C8. Saving any record over any previous file contents and
immediately loading yields a record with the same cost, the same balance,
and a `cached_at` string every parser maps to the same instant as the
saved one. The flag `true` instantiates the write-success oracle: the
source swallows write errors, and the claim speaks of a completed save. -/
theorem cache_save_load_roundtrip (store : Option IkunCodeCache)
    (r : IkunCodeCache) (parse : String → Option Int) :
    ∃ r2, load_cache (save_cache true store r) = some r2 ∧
      r2.cost = r.cost ∧ r2.balance = r.balance ∧
      parse r2.cached_at = parse r.cached_at :=
  ⟨r, rfl, rfl, rfl, rfl⟩

end IkunCode
